import Mathlib

/-!
Verification of the biomed-pharmacy-backend asset and CRUD layer
(src/index.js) against its natural-language specification.

The JavaScript handlers are shallowly embedded as pure Lean functions.
JS strings are modelled as `List Char`; JS numbers appearing in the
asset-serving path are modelled as `Int` with `Option Int` covering NaN;
the external Supabase database/storage client is modelled by explicit
parameters (configured flag, error flags, row lists, remove outcomes).
Every route handler becomes a function from its request data and the
collaborator behaviour to an HTTP response (plus, for the delete
handlers, the ordered list of collaborator calls it issues).
-/

namespace Biomed

/-- JS strings are modelled as lists of characters. -/
abbrev JStr := List Char

/-- Decimal rendering of a natural number (JS template interpolation of a
non-negative integer). -/
def natStr (n : Nat) : JStr := (Nat.repr n).data

/-- Decimal rendering of a JS integer value, as template interpolation does. -/
def intStr : Int → JStr
  | Int.ofNat m => natStr m
  | Int.negSucc m => '-' :: natStr (m + 1)

/-- Rendering of a possibly-NaN JS number (`none` models NaN). -/
def jsNumStr : Option Int → JStr
  | none => ("NaN").data
  | some i => intStr i

/-- Numeric value of a list of decimal digit characters. -/
def digitsVal (ds : JStr) : Nat :=
  ds.foldl (fun a c => 10 * a + (c.toNat - 48)) 0

/-- Models JavaScript `parseInt(s, 10)` for the inputs reachable in this
code path: the longest leading run of decimal digits is taken, and the
result is NaN (`none`) when there is none.  (Leading whitespace and sign
forms do not occur in the strings this program feeds to `parseInt`.) -/
def parseIntJS (s : JStr) : Option Int :=
  let ds := s.takeWhile Char.isDigit
  if ds.isEmpty then none else some (digitsVal ds : Nat)

/-- Models `s.replace(pat, rep)` with a plain first-occurrence pattern
(the source only uses non-global regex/string patterns). -/
def replaceFirst (pat rep : JStr) : JStr → JStr
  | [] => []
  | c :: rest =>
    if !pat.isEmpty && pat.isPrefixOf (c :: rest) then
      rep ++ rest.drop (pat.length - 1)
    else c :: replaceFirst pat rep rest

/-- Models `s.split(sep)` for a single-character separator. -/
def splitOnChar (sep : Char) : JStr → List JStr
  | [] => [[]]
  | c :: rest =>
    match splitOnChar sep rest with
    | [] => [[c]]
    | g :: gs => if c = sep then [] :: g :: gs else (c :: g) :: gs

/-- Models `s.split(sep)` for a multi-character separator string. -/
def splitOnSub (sep : JStr) : JStr → List JStr
  | [] => [[]]
  | c :: rest =>
    if !sep.isEmpty && sep.isPrefixOf (c :: rest) then
      [] :: splitOnSub sep (rest.drop (sep.length - 1))
    else
      match splitOnSub sep rest with
      | [] => [[c]]
      | g :: gs => (c :: g) :: gs
termination_by cs => cs.length
decreasing_by
  all_goals simp [List.length_drop]
  omega

/-- Models `s.includes(pat)` for a non-empty pattern. -/
def containsSub (pat : JStr) : JStr → Bool
  | [] => false
  | c :: rest => (!pat.isEmpty && pat.isPrefixOf (c :: rest)) || containsSub pat rest

/-- The characters after the first occurrence of `pat`, if any. -/
def afterFirstSub (pat : JStr) : JStr → Option JStr
  | [] => none
  | c :: rest =>
    if !pat.isEmpty && pat.isPrefixOf (c :: rest) then
      some (rest.drop (pat.length - 1))
    else afterFirstSub pat rest

/-- Models `parts.join(sep)` with separator `/`. -/
def joinWithSlash : List JStr → JStr
  | [] => []
  | [g] => g
  | g :: g2 :: gs => g ++ '/' :: joinWithSlash (g2 :: gs)

/-- JS truthiness of a string (only the empty string is falsy). -/
def jsTruthyStr (s : JStr) : Bool := !s.isEmpty

/-- JS truthiness of a possibly-absent string field. -/
def jsTruthyStrOpt : Option JStr → Bool
  | none => false
  | some s => !s.isEmpty

/-- JS truthiness of a possibly-absent number field (0 is falsy). -/
def jsTruthyIntOpt : Option Int → Bool
  | none => false
  | some n => n != 0

/-- Whether a string is empty or whitespace-only
(models the `!s || s.trim() === ''` check). -/
def jsBlank (s : JStr) : Bool := s.all Char.isWhitespace

/- ===================== Asset server: video range requests =====================
Embeds the handler of `GET /uploads/videos/:filename`, src/index.js lines
134-161: stat size, optional `Range` header parsing, 206/200 response. -/

/-- The response head written by the video route. -/
structure VideoResponse where
  status : Nat
  contentRange : Option JStr
  acceptRanges : Option JStr
  /-- Content-Length as a JS number; `none` models NaN. -/
  contentLength : Option Int
  contentType : JStr
deriving DecidableEq

/-- The 206 branch of the video route (lines 138-152): strip `bytes=`,
split on `-`, parse start and optional end (end defaults to
`fileSize - 1` when `parts[1]` is missing or empty, which is falsy). -/
def videoRangeHead (fileSize : Nat) (r : JStr) : VideoResponse :=
  let parts := splitOnChar '-' (replaceFirst (("bytes=").data) [] r)
  let startN := parseIntJS (parts.headD [])
  let endN : Option Int :=
    match parts with
    | _ :: p1 :: _ => if p1.isEmpty then some ((fileSize : Int) - 1) else parseIntJS p1
    | _ => some ((fileSize : Int) - 1)
  let chunk : Option Int :=
    match startN, endN with
    | some s, some e => some (e - s + 1)
    | _, _ => none
  { status := 206
    contentRange := some (("bytes ").data ++ jsNumStr startN ++ '-' :: jsNumStr endN
      ++ '/' :: natStr fileSize)
    acceptRanges := some (("bytes").data)
    contentLength := chunk
    contentType := ("video/mp4").data }

/-- The response head of the video route for a file of size `fileSize`,
given the raw `Range` header (`none` = header absent; the empty string is
falsy in JS and also takes the no-range branch). -/
def videoServeHead (fileSize : Nat) (range : Option JStr) : VideoResponse :=
  match range with
  | some r =>
    if r.isEmpty then
      { status := 200, contentRange := none, acceptRanges := none
        contentLength := some (fileSize : Int), contentType := ("video/mp4").data }
    else videoRangeHead fileSize r
  | none =>
    { status := 200, contentRange := none, acceptRanges := none
      contentLength := some (fileSize : Int), contentType := ("video/mp4").data }

/- ===================== Asset server: content types and candidate paths ====== -/

/-- Models Node `path.extname` (applied to the route filename, lines
200-201): the suffix of the last path component starting at its last dot,
empty when there is no dot or the dot is the component's first character. -/
def extname (p : JStr) : JStr :=
  let base := (splitOnChar '/' p).getLastD []
  match base.reverse.findIdx? (· == '.') with
  | none => []
  | some r =>
    let i := base.length - 1 - r
    if i = 0 then [] else base.drop i

/-- The image content-type table, src/index.js lines 202-208. -/
def contentTypeMap : List (JStr × JStr) :=
  [ ((".jpg").data, ("image/jpeg").data)
  , ((".jpeg").data, ("image/jpeg").data)
  , ((".png").data, ("image/png").data)
  , ((".gif").data, ("image/gif").data)
  , ((".webp").data, ("image/webp").data) ]

/-- Key lookup in an object literal used as a map. -/
def lookupAssoc (k : JStr) : List (JStr × JStr) → Option JStr
  | [] => none
  | (a, v) :: rest => if k = a then some v else lookupAssoc k rest

/-- Content type served for an image filename (lines 201-209):
lower-cased extension through `contentTypeMap`, default `image/jpeg`. -/
def contentTypeFor (fname : JStr) : JStr :=
  let ext := (extname fname).map Char.toLower
  (lookupAssoc ext contentTypeMap).getD (("image/jpeg").data)

/-- Candidate locations tried by the video route, in order (lines 109-113):
`/tmp/videos` first when on Vercel, then the static base directory. -/
def videoCandidatePaths (isVercel : Bool) (staticBaseDir fname : JStr) : List JStr :=
  (if isVercel then [("/tmp/videos/").data ++ fname] else [])
    ++ [staticBaseDir ++ ("/videos/").data ++ fname]

/-- Candidate locations tried by the image route, in order (lines 175-179). -/
def imageCandidatePaths (isVercel : Bool) (staticBaseDir fname : JStr) : List JStr :=
  (if isVercel then [("/tmp/products/").data ++ fname] else [])
    ++ [staticBaseDir ++ ("/products/").data ++ fname]

/-- The first existing candidate (the for/existsSync loop of lines
116-127): `fileExists` models `fs.existsSync`. -/
def resolveFirstExisting (fileExists : JStr → Bool) (paths : List JStr) : Option JStr :=
  paths.find? fileExists

/-- Outcome of the video route. -/
inductive VideoOutcome
  | stream (path : JStr) (head : VideoResponse)
  | notFoundJson (errMsg : JStr)
deriving DecidableEq

/-- Outcome of the image route. -/
inductive ImageOutcome
  | stream (path : JStr) (contentType : JStr)
  | fallthrough
deriving DecidableEq

/-- The video route `GET /uploads/videos/:filename` (lines 104-161):
resolve the file across candidates, else 404 JSON; on success serve with
range handling.  `fileSize` is the stat size of the resolved file. -/
def videoRoute (fileExists : JStr → Bool) (isVercel : Bool)
    (staticBaseDir fname : JStr) (fileSize : Nat) (range : Option JStr) : VideoOutcome :=
  match resolveFirstExisting fileExists (videoCandidatePaths isVercel staticBaseDir fname) with
  | none => VideoOutcome.notFoundJson (("Video not found").data)
  | some p => VideoOutcome.stream p (videoServeHead fileSize range)

/-- The image route `GET /uploads/products/:filename` (lines 170-218):
resolve across candidates, else `next()` into the static middleware. -/
def imageRoute (fileExists : JStr → Bool) (isVercel : Bool)
    (staticBaseDir fname : JStr) : ImageOutcome :=
  match resolveFirstExisting fileExists (imageCandidatePaths isVercel staticBaseDir fname) with
  | none => ImageOutcome.fallthrough
  | some p => ImageOutcome.stream p (contentTypeFor fname)

/- ===================== Storage backend: upload ===================== -/

/-- The Supabase public-object URL marker, src/index.js line 345. -/
def pubMarkerS : JStr := ("/storage/v1/object/public/").data

def productsS : JStr := ("products").data

def httpSchemeS : JStr := ("http://").data

def httpsSchemeS : JStr := ("https://").data

/-- Return value of `uploadToSupabaseStorage` (lines 327-331). -/
structure StorageUploadResult where
  path : JStr
  publicUrl : JStr
  fileName : JStr
deriving DecidableEq

/-- The storage key generated on upload (lines 289-291):
`<folder>/<timestamp>-<random><ext>`, folder omitted when empty. -/
def mkUploadFileName (folder : JStr) (ts rand : Nat) (ext : JStr) : JStr :=
  let suffix := natStr ts ++ '-' :: natStr rand ++ ext
  if folder.isEmpty then suffix else folder ++ '/' :: suffix

/-- Modelled from the spec: the object-storage client's public URL for a
key, `https://{project}.supabase.co/storage/v1/object/public/{bucket}/{path}`
(the client library is an external collaborator; the URL shape is the one
documented by the spec and by the comment at src/index.js line 342). -/
def storagePublicUrl (baseUrl bucket key : JStr) : JStr :=
  baseUrl ++ pubMarkerS ++ bucket ++ '/' :: key

/-- `uploadToSupabaseStorage` (lines 284-332).  `configured` models the
global client being non-null, `uploadErr` a failed storage upload
(`some message`), `ts`/`rand` the timestamp and random suffix, `ext` the
original filename's extension. -/
def uploadToSupabaseStorage (configured : Bool) (uploadErr : Option JStr)
    (baseUrl bucket folder : JStr) (ts rand : Nat) (ext : JStr) :
    Except JStr StorageUploadResult :=
  if !configured then Except.error (("Supabase is not configured").data)
  else
    let fileName := mkUploadFileName folder ts rand ext
    match uploadErr with
    | some m => Except.error m
    | none =>
      Except.ok
        { path := fileName
          publicUrl := storagePublicUrl baseUrl bucket fileName
          fileName := fileName }

/- ===================== Storage backend: delete ===================== -/

/-- Strip a redundant leading `<bucket>/` segment (lines 372-375). -/
def stripBucketIfLeading (bucket s : JStr) : JStr :=
  if (bucket ++ ['/']).isPrefixOf s then s.drop (bucket.length + 1) else s

/-- The public-URL branch of the delete normalizer (lines 345-357):
take the part after the marker, and drop the bucket path component when
it matches. -/
def publicUrlStrip (bucket fp : JStr) : JStr :=
  match splitOnSub pubMarkerS fp with
  | _ :: afterPublic :: _ =>
    match splitOnChar '/' afterPublic with
    | b0 :: restParts => if b0 = bucket then joinWithSlash restParts else afterPublic
    | [] => afterPublic
  | _ => fp

/-- Models `new URL(fp).pathname` for the http(s) references reaching the
second delete branch: scheme, authority up to the first `/`, `?` or `#`,
then the path up to `?` or `#`; `none` models the constructor throwing
(no scheme match or empty authority). -/
def jsUrlPathname (fp : JStr) : Option JStr :=
  let rest :=
    if httpSchemeS.isPrefixOf fp then some (fp.drop 7)
    else if httpsSchemeS.isPrefixOf fp then some (fp.drop 8)
    else none
  match rest with
  | none => none
  | some r =>
    let host := r.takeWhile (fun c => !(c == '/' || c == '?' || c == '#'))
    if host.isEmpty then none
    else
      match r.drop host.length with
      | '/' :: after => some ('/' :: after.takeWhile (fun c => !(c == '?' || c == '#')))
      | _ => some ['/']

/-- The other-URL branch of the delete normalizer (lines 358-366):
`url.pathname.replace('/storage/v1/object/public/<bucket>/', '')`; `none`
when URL parsing throws (the handler then returns without removing). -/
def urlPathnameStrip (bucket fp : JStr) : Option JStr :=
  match jsUrlPathname fp with
  | none => none
  | some pn => some (replaceFirst (pubMarkerS ++ bucket ++ ['/']) [] pn)

/-- The full normalization of a stored reference to the key handed to
`remove` (lines 343-375): the three reference forms are alternatives of
one if/else-if chain, and the leading-bucket strip runs afterwards in
every case.  `none` means the remove call is not reached. -/
def normalizeDeleteKey (bucket fp : JStr) : Option JStr :=
  let branched : Option JStr :=
    if containsSub pubMarkerS fp then some (publicUrlStrip bucket fp)
    else if httpSchemeS.isPrefixOf fp || httpsSchemeS.isPrefixOf fp then
      urlPathnameStrip bucket fp
    else if fp.head? = some '/' then some (fp.drop 1)
    else some fp
  branched.map (stripBucketIfLeading bucket)

/-- Behaviour of the external `storage.remove` call for one key. -/
inductive RemoveOutcome
  | ok
  | errValue (msg : JStr)
  | thrown (msg : JStr)
deriving DecidableEq

/-- What a call to `deleteFromSupabaseStorage` did: the keys passed to
`remove` (at most one), and whether an error escaped to the caller. -/
structure DeleteResult where
  removeCalls : List JStr
  escalated : Bool
deriving DecidableEq

/-- `deleteFromSupabaseStorage` (lines 335-394).  Early return when the
client is unconfigured or the path argument is falsy; normalization to a
bare key; no-op on a blank key (line 377); the remove outcome, value
error or thrown, is only logged — the surrounding try/catch makes every
path return normally, so `escalated` is false on each branch. -/
def deleteFromSupabaseStorage (configured : Bool) (remove : JStr → RemoveOutcome)
    (bucket fp : JStr) : DeleteResult :=
  if !configured || fp.isEmpty then { removeCalls := [], escalated := false }
  else
    match normalizeDeleteKey bucket fp with
    | none => { removeCalls := [], escalated := false }
    | some key =>
      if jsBlank key then { removeCalls := [], escalated := false }
      else
        match remove key with
        | RemoveOutcome.ok => { removeCalls := [key], escalated := false }
        | RemoveOutcome.errValue _ => { removeCalls := [key], escalated := false }
        | RemoveOutcome.thrown _ => { removeCalls := [key], escalated := false }

/- Claim-side definition for C7: the four normalization strips read as one
unconditional pipeline, each step applying whenever its pattern matches.
This follows the claim's words, not the source, and is compared against
`normalizeDeleteKey`. -/

/-- Stated from the claim: strip public-URL prefix, then bucket path
component, then a leading slash, then a remaining leading `<bucket>/`,
all in sequence on whichever forms match. -/
def claimOrderedNormalize (bucket fp : JStr) : JStr :=
  let s1 := (afterFirstSub pubMarkerS fp).getD fp
  let s2 :=
    match splitOnChar '/' s1 with
    | b0 :: restParts => if b0 = bucket then joinWithSlash restParts else s1
    | [] => s1
  let s3 := if s2.head? = some '/' then s2.drop 1 else s2
  stripBucketIfLeading bucket s3

/-- The reference forms distinguished by the delete normalizer's
if/else-if chain, in source order. -/
inductive RefForm
  | publicUrlForm
  | httpUrlForm
  | slashForm
  | plainForm
deriving DecidableEq

/-- Which single branch of the normalizer an input takes. -/
def detectRefForm (fp : JStr) : RefForm :=
  if containsSub pubMarkerS fp then RefForm.publicUrlForm
  else if httpSchemeS.isPrefixOf fp || httpsSchemeS.isPrefixOf fp then RefForm.httpUrlForm
  else if fp.head? = some '/' then RefForm.slashForm
  else RefForm.plainForm

/-- Amended-claim normalization: the first three strips are exclusive
alternatives selected by the reference's form, and only the final
leading-bucket strip runs unconditionally afterwards. -/
def amendedNormalize (bucket fp : JStr) : Option JStr :=
  let stripped : Option JStr :=
    match detectRefForm fp with
    | RefForm.publicUrlForm => some (publicUrlStrip bucket fp)
    | RefForm.httpUrlForm => urlPathnameStrip bucket fp
    | RefForm.slashForm => some (fp.drop 1)
    | RefForm.plainForm => some fp
  stripped.map (stripBucketIfLeading bucket)

/- ===================== Data model: products, banners, responses ========== -/

/-- A product row of the mock dataset (lines 966-1013). -/
structure MockProduct where
  id : JStr
  name : JStr
  rating : Rat
  reviews : Int
  originalPrice : Int
  discountedPrice : Int
  image : JStr
  description : JStr
  inStock : Bool
deriving DecidableEq

/-- The fixed mock dataset returned when the database is unavailable
(`getMockProducts`, lines 966-1013). -/
def getMockProducts : List MockProduct :=
  [ { id := ("prod-1").data
      name := ("Magnesium Glycinate | Magnizen").data
      rating := (4.5 : Rat), reviews := 120
      originalPrice := 4500, discountedPrice := 3500
      image := ("/assets/products/main-product.jpeg").data
      description := ("Calm the mind by supporting the nervous system. Relax muscles and nerves to promote restful sleep. Provide optimal support with its highly absorbable and gentle form.").data
      inStock := true }
  , { id := ("prod-2").data
      name := ("Vanur Men").data
      rating := (4.8 : Rat), reviews := 89
      originalPrice := 2000, discountedPrice := 1650
      image := ("/assets/products/product-1.jpeg").data
      description := ("Calm the mind by supporting the nervous system. Relax muscles and nerves to promote restful sleep. Provide optimal support with its highly absorbable and gentle form.").data
      inStock := true }
  , { id := ("prod-3").data
      name := ("Vanur Women").data
      rating := (4.6 : Rat), reviews := 156
      originalPrice := 1800, discountedPrice := 1500
      image := ("/assets/products/product-2.jpeg").data
      description := ("Calm the mind by supporting the nervous system. Relax muscles and nerves to promote restful sleep. Provide optimal support with its highly absorbable and gentle form.").data
      inStock := true }
  , { id := ("prod-4").data
      name := ("Certeza BM-405 Digital Blood Pressure Monitor").data
      rating := (4.7 : Rat), reviews := 245
      originalPrice := 6500, discountedPrice := 5950
      image := ("/assets/products/other-product/Certeza-1.webp").data
      description := ("Accurately measures blood pressure and pulse on the arm. Features a soft cuff material for added comfort. Includes a hypertension indicator and an irregular heartbeat detector.").data
      inStock := true } ]

/-- A product record as built by the create handler (lines 614-633).
Numeric JSON fields are modelled as integers (the requests this spec
covers send integral numbers, on which `parseFloat`/`parseInt` are the
identity). -/
structure Product where
  id : JStr
  name : JStr
  rating : Int
  reviews : Int
  questions : Int
  originalPrice : Int
  discountedPrice : Int
  image : JStr
  images : List JStr
  video : Option JStr
  packSize : Option JStr
  wellnessCoins : Option Int
  description : JStr
  helps : Option (List JStr)
  details : Option JStr
  directions : Option JStr
  ingredients : Option (List JStr)
  inStock : Option Bool
deriving DecidableEq

/-- The request body of `POST /api/products` (destructured at lines
595-600); `none` models an absent field. -/
structure ProductBody where
  name : Option JStr
  rating : Option Int
  reviews : Option Int
  questions : Option Int
  originalPrice : Option Int
  discountedPrice : Option Int
  image : Option JStr
  images : Option (List JStr)
  video : Option JStr
  packSize : Option JStr
  wellnessCoins : Option Int
  description : Option JStr
  helps : Option (List JStr)
  details : Option JStr
  directions : Option JStr
  ingredients : Option (List JStr)
  inStock : Option Bool
deriving DecidableEq

/-- A request body with every field absent. -/
def emptyProductBody : ProductBody :=
  { name := none, rating := none, reviews := none, questions := none
    originalPrice := none, discountedPrice := none, image := none, images := none
    video := none, packSize := none, wellnessCoins := none, description := none
    helps := none, details := none, directions := none, ingredients := none
    inStock := none }

/-- The spec's example create request: name `X`, prices 100/80, no id,
rating or inStock. -/
def exampleProductBody : ProductBody :=
  { emptyProductBody with
    name := some (("X").data)
    originalPrice := some 100
    discountedPrice := some 80 }

/-- A banner record as built by the create handler (lines 848-855). -/
structure Banner where
  image_url : JStr
  title : Option JStr
  subtitle : Option JStr
  link : Option JStr
  order_index : Int
  is_active : Bool
deriving DecidableEq

/-- The JSON bodies this layer can respond with. -/
inductive RespBody
  | jsonMsg (m : JStr)
  | jsonErr (e : JStr) (details : Option JStr)
  | mockProductList (ps : List MockProduct)
  | productList (ps : List Product)
  | productOut (p : Product) (m : JStr)
  | bannerList (bs : List Banner)
  | bannerOut (b : Banner) (m : JStr)
  | uploadOut (u : StorageUploadResult) (m : JStr)
  | uploadsOut (us : List StorageUploadResult) (m : JStr)
deriving DecidableEq

/-- An HTTP response: status plus JSON body. -/
structure HttpResponse where
  status : Nat
  body : RespBody
deriving DecidableEq

/- ===================== Upload routes ===================== -/

/-- `POST /api/upload/image` (lines 397-420): 400 without a file, 500
when the storage client is unconfigured, otherwise the upload result. -/
def uploadImageRoute (configured filePresent : Bool)
    (upload : Except JStr StorageUploadResult) : HttpResponse :=
  if !filePresent then
    { status := 400, body := RespBody.jsonErr (("No image file provided").data) none }
  else if !configured then
    { status := 500, body := RespBody.jsonErr (("Supabase is not configured").data) none }
  else
    match upload with
    | Except.ok u =>
      { status := 200, body := RespBody.uploadOut u (("Image uploaded successfully").data) }
    | Except.error m =>
      { status := 500, body := RespBody.jsonErr (("Error uploading image").data) (some m) }

/-- `POST /api/upload/images` (lines 423-451). -/
def uploadImagesRoute (configured filesPresent : Bool)
    (uploads : Except JStr (List StorageUploadResult)) : HttpResponse :=
  if !filesPresent then
    { status := 400, body := RespBody.jsonErr (("No image files provided").data) none }
  else if !configured then
    { status := 500, body := RespBody.jsonErr (("Supabase is not configured").data) none }
  else
    match uploads with
    | Except.ok us =>
      { status := 200, body := RespBody.uploadsOut us (("Images uploaded successfully").data) }
    | Except.error m =>
      { status := 500, body := RespBody.jsonErr (("Error uploading images").data) (some m) }

/-- `POST /api/upload/video` (lines 454-477). -/
def uploadVideoRoute (configured filePresent : Bool)
    (upload : Except JStr StorageUploadResult) : HttpResponse :=
  if !filePresent then
    { status := 400, body := RespBody.jsonErr (("No video file provided").data) none }
  else if !configured then
    { status := 500, body := RespBody.jsonErr (("Supabase is not configured").data) none }
  else
    match upload with
    | Except.ok u =>
      { status := 200, body := RespBody.uploadOut u (("Video uploaded successfully").data) }
    | Except.error m =>
      { status := 500, body := RespBody.jsonErr (("Error uploading video").data) (some m) }

/- ===================== Product routes ===================== -/

/-- `GET /api/products` (lines 480-504): rows when the database answers,
the mock dataset when it errors or is unconfigured. -/
def getProductsRoute (configured dbErr : Bool) (rows : List Product) : HttpResponse :=
  if configured then
    if dbErr then { status := 200, body := RespBody.mockProductList getMockProducts }
    else { status := 200, body := RespBody.productList rows }
  else { status := 200, body := RespBody.mockProductList getMockProducts }

/-- Does an id match `^prod-(\d+)$` (line 566), and with which number. -/
def parseProdNum (id : JStr) : Option Nat :=
  if (("prod-").data).isPrefixOf id then
    let digits := id.drop 5
    if !digits.isEmpty && digits.all Char.isDigit then some (digitsVal digits) else none
  else none

/-- The running maximum over pattern-matching ids (lines 563-573). -/
def maxProdNum (ids : List JStr) : Nat :=
  ids.foldl
    (fun m id =>
      match parseProdNum id with
      | some n => if n > m then n else m
      | none => m)
    0

/-- `generateProductId` (lines 548-590).  `fetchErr` covers both the
select error and the catch branch (timestamp fallback); `ids` the fetched
id column; `now` the value of `Date.now()`. -/
def generateProductId (configured fetchErr : Bool) (ids : List JStr) (now : Nat) : JStr :=
  if configured then
    if fetchErr then ("prod-").data ++ natStr now
    else if !ids.isEmpty then
      let m := maxProdNum ids
      if m > 0 then ("prod-").data ++ natStr (m + 1) else ("prod-1").data
    else ("prod-1").data
  else ("prod-").data ++ natStr now

/-- The record built by `POST /api/products` (lines 610-633), including
the image-array compatibility handling and the JS truthiness defaults. -/
def mkNewProduct (productId : JStr) (b : ProductBody) : Product :=
  let imageArray : List JStr :=
    match b.images with
    | some l => l
    | none =>
      match b.image with
      | some i => if i.isEmpty then [] else [i]
      | none => []
  let mainImage : JStr :=
    match b.image with
    | some i => if !i.isEmpty then i else imageArray.headD []
    | none => imageArray.headD []
  { id := productId
    name := b.name.getD []
    rating := if jsTruthyIntOpt b.rating then b.rating.getD 0 else 0
    reviews := if jsTruthyIntOpt b.reviews then b.reviews.getD 0 else 0
    questions := if jsTruthyIntOpt b.questions then b.questions.getD 0 else 0
    originalPrice := b.originalPrice.getD 0
    discountedPrice := b.discountedPrice.getD 0
    image := mainImage
    images := imageArray
    video := if jsTruthyStrOpt b.video then b.video else none
    packSize := if jsTruthyStrOpt b.packSize then b.packSize else none
    wellnessCoins := if jsTruthyIntOpt b.wellnessCoins then b.wellnessCoins else none
    description := b.description.getD []
    helps := b.helps
    details := if jsTruthyStrOpt b.details then b.details else none
    directions := if jsTruthyStrOpt b.directions then b.directions else none
    ingredients := b.ingredients
    inStock := some (b.inStock.getD true) }

/-- `POST /api/products` (lines 593-658).  Returns the response and the
list of rows handed to the database insert (empty when validation fails
or the database is unconfigured). -/
def postProductsRoute (configured fetchErr dbErr : Bool) (ids : List JStr)
    (now : Nat) (b : ProductBody) : HttpResponse × List Product :=
  if !(jsTruthyStrOpt b.name && jsTruthyIntOpt b.originalPrice
        && jsTruthyIntOpt b.discountedPrice) then
    ({ status := 400
       body := RespBody.jsonErr
         (("Name, originalPrice, and discountedPrice are required").data) none }, [])
  else
    let pid := generateProductId configured fetchErr ids now
    let p := mkNewProduct pid b
    if configured then
      if dbErr then
        ({ status := 500
           body := RespBody.jsonErr (("Failed to create product").data) none }, [p])
      else
        ({ status := 201
           body := RespBody.productOut p (("Product created successfully").data) }, [p])
    else
      ({ status := 201
         body := RespBody.productOut p
           (("Product created successfully (stored in memory)").data) }, [])

/- ===================== Delete handlers and their call traces ============ -/

/-- A collaborator call issued by a delete handler. -/
inductive DelEvent
  | storageDel (ref : JStr)
  | dbDel (id : JStr)
deriving DecidableEq

/-- Whether an event is a storage-delete call. -/
def DelEvent.isStorageDel : DelEvent → Bool
  | DelEvent.storageDel _ => true
  | DelEvent.dbDel _ => false

/-- Count of storage-delete calls in a trace. -/
def countStorageDels (evs : List DelEvent) : Nat :=
  (evs.filter DelEvent.isStorageDel).length

/-- The columns fetched before a product delete (line 738). -/
structure FetchedProduct where
  image : Option JStr
  images : Option (List JStr)
  video : Option JStr
deriving DecidableEq

/-- `DELETE /api/products/:id` (lines 730-786): storage deletes for the
truthy main image, every entry of the images array and the truthy video,
then the database delete; the response depends only on the database
outcome.  `removeFails` models the storage remove outcomes — it cannot
influence the trace because `deleteFromSupabaseStorage` returns normally
on every path. -/
def productDeleteRoute (configured : Bool) (_removeFails : JStr → Bool)
    (fetch : Option FetchedProduct) (dbErr : Bool) (id : JStr) :
    List DelEvent × HttpResponse :=
  if configured then
    let storageEvents : List DelEvent :=
      match fetch with
      | none => []
      | some p =>
        (if jsTruthyStrOpt p.image then [DelEvent.storageDel (p.image.getD [])] else [])
          ++ (match p.images with
              | some l => l.map DelEvent.storageDel
              | none => [])
          ++ (if jsTruthyStrOpt p.video then [DelEvent.storageDel (p.video.getD [])] else [])
    let evs := storageEvents ++ [DelEvent.dbDel id]
    if dbErr then
      (evs, { status := 500
              body := RespBody.jsonErr (("Failed to delete product").data) none })
    else
      (evs, { status := 200
              body := RespBody.jsonMsg (("Product deleted successfully").data) })
  else
    ([], { status := 200
           body := RespBody.jsonMsg (("Product deleted successfully (from memory)").data) })

/-- `DELETE /api/banners/:id` (lines 921-961): the database delete comes
first; on a database error the handler responds 500 before any storage
delete; otherwise the truthy `image_url` of the fetched banner is
deleted from storage afterwards.  `fetch` is the fetched row's
`image_url` (`none` = no row). -/
def bannerDeleteRoute (configured : Bool) (_removeFails : JStr → Bool)
    (fetch : Option (Option JStr)) (dbErr : Bool) (id : JStr) :
    List DelEvent × HttpResponse :=
  if configured then
    if dbErr then
      ([DelEvent.dbDel id],
       { status := 500, body := RespBody.jsonErr (("Failed to delete banner").data) none })
    else
      let evs := DelEvent.dbDel id ::
        (match fetch with
         | some (some u) => if !u.isEmpty then [DelEvent.storageDel u] else []
         | _ => [])
      (evs, { status := 200
              body := RespBody.jsonMsg (("Banner deleted successfully").data) })
  else
    ([], { status := 200
           body := RespBody.jsonMsg (("Banner deleted successfully (not saved)").data) })

/- ===================== Banner read/create routes ===================== -/

/-- `GET /api/banners` (lines 791-813): active banners, an empty list on
database error or when unconfigured. -/
def getBannersRoute (configured dbErr : Bool) (rows : List Banner) : HttpResponse :=
  if configured then
    if dbErr then { status := 200, body := RespBody.bannerList [] }
    else { status := 200, body := RespBody.bannerList rows }
  else { status := 200, body := RespBody.bannerList [] }

/-- `POST /api/banners` (lines 840-877). -/
def postBannersRoute (configured dbErr : Bool) (image_url title subtitle link : Option JStr)
    (order_index : Option Int) (is_active : Option Bool) : HttpResponse :=
  if !(jsTruthyStrOpt image_url) then
    { status := 400, body := RespBody.jsonErr (("Image URL is required").data) none }
  else
    let nb : Banner :=
      { image_url := image_url.getD []
        title := if jsTruthyStrOpt title then title else none
        subtitle := if jsTruthyStrOpt subtitle then subtitle else none
        link := if jsTruthyStrOpt link then link else none
        order_index := order_index.getD 0
        is_active := is_active.getD true }
    if configured then
      if dbErr then
        { status := 500, body := RespBody.jsonErr (("Failed to create banner").data) none }
      else
        { status := 201, body := RespBody.bannerOut nb (("Banner created successfully").data) }
    else
      { status := 201
        body := RespBody.bannerOut nb (("Banner created successfully (not saved)").data) }

/- ===================== String lemmas ===================== -/

theorem takeWhile_of_all {p : Char → Bool} {l : JStr} (h : ∀ c ∈ l, p c) :
    l.takeWhile p = l := by
  induction l with
  | nil => rfl
  | cons c cs ih =>
    have hc := h c (by simp)
    have hrest := ih fun x hx => h x (by simp [hx])
    simp [List.takeWhile, hc, hrest]

theorem notMem_dash_of_digits {s : JStr} (h : ∀ c ∈ s, c.isDigit) : '-' ∉ s := by
  intro hm
  have hd := h _ hm
  exact absurd hd (by decide)

theorem parseIntJS_digits (ds : JStr) (h1 : ds ≠ []) (h2 : ∀ c ∈ ds, c.isDigit) :
    parseIntJS ds = some ((digitsVal ds : Nat) : Int) := by
  unfold parseIntJS
  rw [takeWhile_of_all h2]
  have : ds.isEmpty = false := by
    cases ds with
    | nil => exact absurd rfl h1
    | cons a as => rfl
  simp [this]

theorem replaceFirst_append_self (pat rest : JStr) (h : pat ≠ []) :
    replaceFirst pat [] (pat ++ rest) = rest := by
  obtain ⟨p, ps, rfl⟩ := List.exists_cons_of_ne_nil h
  have hpre : (p :: ps).isPrefixOf (p :: (ps ++ rest)) = true := by
    rw [← List.cons_append]
    exact List.isPrefixOf_iff_prefix.mpr (List.prefix_append _ _)
  rw [List.cons_append]
  simp [replaceFirst, hpre, List.drop_left]

theorem splitOnChar_ne_nil (sep : Char) (cs : JStr) : splitOnChar sep cs ≠ [] := by
  induction cs with
  | nil => simp [splitOnChar]
  | cons c rest ih =>
    simp only [splitOnChar]
    cases hs : splitOnChar sep rest with
    | nil => simp
    | cons g gs => by_cases hc : c = sep <;> simp [hc]

theorem splitOnChar_eq_single (sep : Char) (cs : JStr) (h : sep ∉ cs) :
    splitOnChar sep cs = [cs] := by
  induction cs with
  | nil => rfl
  | cons c rest ih =>
    have hc : c ≠ sep := fun e => h (by simp [e])
    have hr : sep ∉ rest := fun e => h (by simp [e])
    simp only [splitOnChar, ih hr]
    simp [hc]

theorem splitOnChar_append (sep : Char) (as bs : JStr) (h : sep ∉ as) :
    splitOnChar sep (as ++ sep :: bs) = as :: splitOnChar sep bs := by
  induction as with
  | nil =>
    cases hs : splitOnChar sep bs with
    | nil => exact absurd hs (splitOnChar_ne_nil sep bs)
    | cons g gs =>
      simp only [List.nil_append, splitOnChar]
      rw [hs]
      simp
  | cons a as' ih =>
    have ha : a ≠ sep := fun e => h (by simp [e])
    have h' : sep ∉ as' := fun e => h (by simp [e])
    rw [List.cons_append]
    simp only [splitOnChar]
    rw [ih h']
    simp [ha]

theorem joinWithSlash_splitOnChar (cs : JStr) :
    joinWithSlash (splitOnChar '/' cs) = cs := by
  induction cs with
  | nil => rfl
  | cons c rest ih =>
    simp only [splitOnChar]
    cases hs : splitOnChar '/' rest with
    | nil => exact absurd hs (splitOnChar_ne_nil _ _)
    | cons g gs =>
      rw [hs] at ih
      by_cases hc : c = '/'
      · subst hc
        simp [joinWithSlash, ih]
      · simp only [if_neg hc]
        cases gs with
        | nil =>
          simp [joinWithSlash] at ih ⊢
          rw [ih]
        | cons g2 gs' =>
          simp only [joinWithSlash] at ih ⊢
          rw [List.cons_append, ih]

/- ===================== C1: range-request handling ===================== -/

/-- C1: for an existing video of size `fileSize`, a `Range` header of the
form `bytes=<start>-<end>` (end optional, defaulting to `fileSize - 1`)
yields status 206 with `Content-Range: bytes <start>-<end>/<fileSize>`,
`Accept-Ranges: bytes` and `Content-Length = end - start + 1`; without a
`Range` header the response is 200 with `Content-Length = fileSize`. -/
theorem range_request_response (fileSize : Nat) (s e : JStr)
    (hs1 : s ≠ []) (hs2 : ∀ c ∈ s, c.isDigit)
    (he1 : e ≠ []) (he2 : ∀ c ∈ e, c.isDigit) (hfs : 0 < fileSize) :
    videoServeHead fileSize (some ((("bytes=").data : JStr) ++ s ++ '-' :: e)) =
      { status := 206
        contentRange := some ((("bytes ").data : JStr) ++ natStr (digitsVal s)
          ++ '-' :: natStr (digitsVal e) ++ '/' :: natStr fileSize)
        acceptRanges := some (("bytes").data)
        contentLength := some ((digitsVal e : Int) - (digitsVal s : Int) + 1)
        contentType := ("video/mp4").data }
    ∧ videoServeHead fileSize (some ((("bytes=").data : JStr) ++ s ++ ['-'])) =
      { status := 206
        contentRange := some ((("bytes ").data : JStr) ++ natStr (digitsVal s)
          ++ '-' :: natStr (fileSize - 1) ++ '/' :: natStr fileSize)
        acceptRanges := some (("bytes").data)
        contentLength := some ((fileSize : Int) - 1 - (digitsVal s : Int) + 1)
        contentType := ("video/mp4").data }
    ∧ videoServeHead fileSize none =
      { status := 200, contentRange := none, acceptRanges := none
        contentLength := some (fileSize : Int), contentType := ("video/mp4").data } := by
  have hdash_s := notMem_dash_of_digits hs2
  have hdash_e := notMem_dash_of_digits he2
  have hps := parseIntJS_digits s hs1 hs2
  have hpe := parseIntJS_digits e he1 he2
  have hee : e.isEmpty = false := by
    cases e with
    | nil => exact absurd rfl he1
    | cons a as => rfl
  refine ⟨?_, ?_, rfl⟩
  · show videoRangeHead fileSize ((("bytes=").data : JStr) ++ (s ++ '-' :: e)) = _
    rw [videoRangeHead, replaceFirst_append_self _ _ (by decide),
      splitOnChar_append '-' s e hdash_s, splitOnChar_eq_single '-' e hdash_e]
    simp only [List.headD, hps, hpe, hee]
    rfl
  · show videoRangeHead fileSize ((("bytes=").data : JStr) ++ (s ++ ['-'])) = _
    rw [videoRangeHead, replaceFirst_append_self _ _ (by decide)]
    rw [show (s ++ ['-'] : JStr) = s ++ '-' :: [] from rfl,
      splitOnChar_append '-' s [] hdash_s]
    simp only [List.headD, hps]
    have hcast : ((fileSize : Int) - 1) = ((fileSize - 1 : Nat) : Int) := by
      omega
    rw [show splitOnChar '-' ([] : JStr) = [[]] from rfl]
    simp only [List.isEmpty_nil, if_true]
    rw [hcast]
    rfl

/-- Witness for C1 at the spec's concrete instance. -/
theorem range_request_response_witness :
    videoServeHead 1000 (some (("bytes=200-299").data)) =
      { status := 206
        contentRange := some (("bytes 200-299/1000").data)
        acceptRanges := some (("bytes").data)
        contentLength := some 100
        contentType := ("video/mp4").data }
    ∧ videoServeHead 1000 none =
      { status := 200, contentRange := none, acceptRanges := none
        contentLength := some 1000, contentType := ("video/mp4").data } := by
  have h := range_request_response 1000 (("200").data) (("299").data)
    (by decide) (by decide) (by decide) (by decide) (by decide)
  constructor
  · rw [show (("bytes=200-299").data : JStr)
        = (("bytes=").data : JStr) ++ (("200").data : JStr) ++ '-' :: (("299").data : JStr)
        from rfl, h.1]
    decide
  · exact h.2.2

/- ===================== C9: content-type resolution ===================== -/

/-- C9: the image content type is the fixed extension mapping on the
lower-cased extension (jpg/jpeg, png, gif, webp) with default
`image/jpeg`; every video response is served as `video/mp4` whatever the
extension. -/
theorem content_type_resolution :
    (∀ fname : JStr,
      contentTypeFor fname =
        (if (extname fname).map Char.toLower = (".jpg").data
            ∨ (extname fname).map Char.toLower = (".jpeg").data then ("image/jpeg").data
         else if (extname fname).map Char.toLower = (".png").data then ("image/png").data
         else if (extname fname).map Char.toLower = (".gif").data then ("image/gif").data
         else if (extname fname).map Char.toLower = (".webp").data then ("image/webp").data
         else ("image/jpeg").data))
    ∧ (∀ (fileSize : Nat) (range : Option JStr),
        (videoServeHead fileSize range).contentType = ("video/mp4").data) := by
  constructor
  · intro fname
    simp only [contentTypeFor, contentTypeMap, lookupAssoc]
    by_cases h1 : (extname fname).map Char.toLower = (".jpg").data
    · simp [h1]
    · by_cases h2 : (extname fname).map Char.toLower = (".jpeg").data
      · simp [h1, h2]
      · by_cases h3 : (extname fname).map Char.toLower = (".png").data
        · simp [h1, h2, h3]
        · by_cases h4 : (extname fname).map Char.toLower = (".gif").data
          · simp [h1, h2, h3, h4]
          · by_cases h5 : (extname fname).map Char.toLower = (".webp").data
            · simp [h1, h2, h3, h4, h5]
            · simp [h1, h2, h3, h4, h5]
  · intro fileSize range
    match range with
    | none => rfl
    | some r =>
      by_cases hr : r.isEmpty
      · simp [videoServeHead, hr]
      · simp [videoServeHead, hr, videoRangeHead]

/- ===================== C6: candidate-path resolution ===================== -/

/-- C6: the asset routes try the ordered candidate roots (the ephemeral
`/tmp` root first on Vercel, then the bundled static root) and serve the
first existing one — with roots `[A, B]` and the file only in `B`, `B` is
served; when no candidate exists the video route answers 404
`{error: "Video not found"}` while the image route falls through to the
static middleware. -/
theorem candidate_path_resolution (fileExists : JStr → Bool) (staticBaseDir fname : JStr)
    (fileSize : Nat) (range : Option JStr) :
    ((fileExists ((("/tmp/videos/").data : JStr) ++ fname) = false) →
      (fileExists (staticBaseDir ++ ("/videos/").data ++ fname) = true) →
      videoRoute fileExists true staticBaseDir fname fileSize range =
        VideoOutcome.stream (staticBaseDir ++ ("/videos/").data ++ fname)
          (videoServeHead fileSize range))
    ∧ ((∀ p ∈ videoCandidatePaths true staticBaseDir fname, fileExists p = false) →
        videoRoute fileExists true staticBaseDir fname fileSize range =
          VideoOutcome.notFoundJson (("Video not found").data))
    ∧ ((∀ p ∈ imageCandidatePaths true staticBaseDir fname, fileExists p = false) →
        imageRoute fileExists true staticBaseDir fname = ImageOutcome.fallthrough) := by
  refine ⟨?_, ?_, ?_⟩
  · intro h1 h2
    simp at h1 h2
    simp [videoRoute, resolveFirstExisting, videoCandidatePaths, List.find?, h1, h2]
  · intro hall
    have h1 := hall ((("/tmp/videos/").data : JStr) ++ fname) (by simp [videoCandidatePaths])
    have h2 := hall (staticBaseDir ++ ("/videos/").data ++ fname) (by simp [videoCandidatePaths])
    simp at h1 h2
    simp [videoRoute, resolveFirstExisting, videoCandidatePaths, List.find?, h1, h2]
  · intro hall
    have h1 := hall ((("/tmp/products/").data : JStr) ++ fname) (by simp [imageCandidatePaths])
    have h2 := hall (staticBaseDir ++ ("/products/").data ++ fname) (by simp [imageCandidatePaths])
    simp at h1 h2
    simp [imageRoute, resolveFirstExisting, imageCandidatePaths, List.find?, h1, h2]

/-- Witness for C6 with concrete roots: the file exists only under the
second candidate root, is served from there, and an absent file gives the
two asymmetric not-found outcomes. -/
theorem candidate_path_resolution_witness :
    videoRoute (fun p => p == (("S/videos/f.mp4").data : JStr)) true (("S").data)
        (("f.mp4").data) 10 none =
      VideoOutcome.stream ((("S").data : JStr) ++ ("/videos/").data ++ ("f.mp4").data)
        (videoServeHead 10 none)
    ∧ videoRoute (fun _ => false) true (("S").data) (("f.mp4").data) 10 none =
      VideoOutcome.notFoundJson (("Video not found").data)
    ∧ imageRoute (fun _ => false) true (("S").data) (("f.mp4").data) =
      ImageOutcome.fallthrough := by
  refine ⟨(candidate_path_resolution _ _ _ 10 none).1 (by decide) (by decide),
    (candidate_path_resolution _ _ _ 10 none).2.1 (fun p _ => rfl),
    (candidate_path_resolution (fun _ => false) (("S").data) (("f.mp4").data) 10 none).2.2
      (fun p _ => rfl)⟩

/- ===================== Storage normalization lemmas ===================== -/

theorem isEmpty_false_of_ne_nil {l : JStr} (h : l ≠ []) : l.isEmpty = false := by
  cases l with
  | nil => exact absurd rfl h
  | cons a as => rfl

theorem splitOnSub_ne_nil (sep cs : JStr) : splitOnSub sep cs ≠ [] := by
  match cs with
  | [] => simp [splitOnSub]
  | c :: rest =>
    simp only [splitOnSub]
    by_cases h : (!sep.isEmpty && sep.isPrefixOf (c :: rest)) = true
    · simp [h]
    · have h' : (!sep.isEmpty && sep.isPrefixOf (c :: rest)) = false := by
        cases hb : (!sep.isEmpty && sep.isPrefixOf (c :: rest))
        · rfl
        · exact absurd hb h
      rw [h']
      simp only [Bool.false_eq_true, if_false]
      cases hs : splitOnSub sep rest <;> simp

theorem splitOnSub_single (sep cs : JStr) (h : containsSub sep cs = false) :
    splitOnSub sep cs = [cs] := by
  induction cs with
  | nil => simp [splitOnSub]
  | cons c rest ih =>
    have h1 : (!sep.isEmpty && sep.isPrefixOf (c :: rest)) = false := by
      cases hb : (!sep.isEmpty && sep.isPrefixOf (c :: rest))
      · rfl
      · rw [containsSub, hb] at h
        simp at h
    have h2 : containsSub sep rest = false := by
      cases hb : containsSub sep rest
      · rfl
      · rw [containsSub, hb] at h
        simp at h
    simp only [splitOnSub, h1]
    rw [ih h2]
    simp

theorem containsSub_append_self (sep as bs : JStr) (hsep : sep ≠ []) :
    containsSub sep (as ++ (sep ++ bs)) = true := by
  induction as with
  | nil =>
    obtain ⟨p, ps, rfl⟩ := List.exists_cons_of_ne_nil hsep
    have hpre : (p :: ps).isPrefixOf (p :: (ps ++ bs)) = true := by
      rw [← List.cons_append]
      exact List.isPrefixOf_iff_prefix.mpr (List.prefix_append _ _)
    simp only [List.nil_append, List.cons_append, containsSub, hpre]
    simp
  | cons a as' ih =>
    rw [List.cons_append, containsSub, ih]
    simp

theorem splitOnSub_append_first (sep as bs : JStr) (hsep : sep ≠ [])
    (hocc : ∀ i < as.length, sep.isPrefixOf ((as ++ (sep ++ bs)).drop i) = false) :
    splitOnSub sep (as ++ (sep ++ bs)) = as :: splitOnSub sep bs := by
  induction as with
  | nil =>
    obtain ⟨p, ps, rfl⟩ := List.exists_cons_of_ne_nil hsep
    have hpre : (p :: ps).isPrefixOf (p :: (ps ++ bs)) = true := by
      rw [← List.cons_append]
      exact List.isPrefixOf_iff_prefix.mpr (List.prefix_append _ _)
    simp only [List.nil_append, List.cons_append, splitOnSub, hpre]
    simp [List.drop_left]
  | cons a as' ih =>
    have h0 : sep.isPrefixOf (a :: (as' ++ (sep ++ bs))) = false := by
      have := hocc 0 (by simp)
      rw [List.cons_append, List.drop_zero] at this
      exact this
    have hocc' : ∀ i < as'.length, sep.isPrefixOf ((as' ++ (sep ++ bs)).drop i) = false := by
      intro i hi
      have := hocc (i + 1) (by simp; omega)
      rw [List.cons_append, List.drop_succ_cons] at this
      exact this
    have hcond : (!sep.isEmpty && sep.isPrefixOf (a :: (as' ++ (sep ++ bs)))) = false := by
      simp [h0]
    rw [List.cons_append]
    simp only [splitOnSub, hcond]
    rw [ih hocc']
    simp

theorem bucketSlash_no_match : ∀ (p f s : JStr), '/' ∉ p → '/' ∉ f → p ≠ f →
    (p ++ ['/']).isPrefixOf (f ++ '/' :: s) = false
  | [], [], _, _, _, hne => absurd rfl hne
  | [], d :: f', s, _, hf, _ => by
    have hd : ('/' == d) = false := by
      have hdne : d ≠ '/' := fun e => hf (by simp [e])
      exact beq_eq_false_iff_ne.mpr (Ne.symm hdne)
    simp [List.isPrefixOf, hd]
  | c :: p', [], s, hp, _, _ => by
    have hc : (c == '/') = false := by
      have hcne : c ≠ '/' := fun e => hp (by simp [e])
      exact beq_eq_false_iff_ne.mpr hcne
    simp [List.isPrefixOf, hc]
  | c :: p', d :: f', s, hp, hf, hne => by
    by_cases hcd : c = d
    · subst hcd
      have hp' : '/' ∉ p' := fun e => hp (List.mem_cons_of_mem _ e)
      have hf' : '/' ∉ f' := fun e => hf (List.mem_cons_of_mem _ e)
      have hne' : p' ≠ f' := fun e => hne (by rw [e])
      have hrec := bucketSlash_no_match p' f' s hp' hf' hne'
      simp [List.isPrefixOf, hrec]
    · have hcd' : (c == d) = false := beq_eq_false_iff_ne.mpr hcd
      simp [List.isPrefixOf, hcd']

theorem jsBlank_of_slash_mem (as bs : JStr) : jsBlank (as ++ '/' :: bs) = false := by
  have hws : Char.isWhitespace '/' = false := by decide
  simp [jsBlank, List.all_append, hws]

theorem publicUrlStrip_of_parts (bucket fp b k : JStr)
    (hs : splitOnSub pubMarkerS fp = [b, bucket ++ '/' :: k])
    (hb : '/' ∉ bucket) :
    publicUrlStrip bucket fp = joinWithSlash (splitOnChar '/' k) := by
  unfold publicUrlStrip
  rw [hs]
  show (match splitOnChar '/' (bucket ++ '/' :: k) with
        | b0 :: restParts => if b0 = bucket then joinWithSlash restParts else bucket ++ '/' :: k
        | [] => bucket ++ '/' :: k) = joinWithSlash (splitOnChar '/' k)
  rw [splitOnChar_append '/' bucket k hb]
  simp

/-- The normalizer maps a public-object URL for a key `<folder>/<suffix>`
(folder slash-free and different from the bucket) back to the bare key. -/
theorem normalizeDeleteKey_publicUrl (base folder suffix : JStr)
    (hf1 : '/' ∉ folder) (hf2 : folder ≠ productsS)
    (hocc : ∀ i < base.length,
      pubMarkerS.isPrefixOf
        ((storagePublicUrl base productsS (folder ++ '/' :: suffix)).drop i) = false)
    (htail : containsSub pubMarkerS (productsS ++ '/' :: (folder ++ '/' :: suffix)) = false) :
    normalizeDeleteKey productsS (storagePublicUrl base productsS (folder ++ '/' :: suffix))
      = some (folder ++ '/' :: suffix) := by
  have hmarker : pubMarkerS ≠ [] := by decide
  have hslash : '/' ∉ productsS := by decide
  have hurl : storagePublicUrl base productsS (folder ++ '/' :: suffix)
      = base ++ (pubMarkerS ++ (productsS ++ '/' :: (folder ++ '/' :: suffix))) := by
    simp [storagePublicUrl]
  rw [hurl] at hocc ⊢
  have hcontains : containsSub pubMarkerS
      (base ++ (pubMarkerS ++ (productsS ++ '/' :: (folder ++ '/' :: suffix)))) = true :=
    containsSub_append_self pubMarkerS base _ hmarker
  have hsplit : splitOnSub pubMarkerS
      (base ++ (pubMarkerS ++ (productsS ++ '/' :: (folder ++ '/' :: suffix))))
      = base :: splitOnSub pubMarkerS (productsS ++ '/' :: (folder ++ '/' :: suffix)) :=
    splitOnSub_append_first pubMarkerS base _ hmarker hocc
  have htailsplit : splitOnSub pubMarkerS (productsS ++ '/' :: (folder ++ '/' :: suffix))
      = [productsS ++ '/' :: (folder ++ '/' :: suffix)] :=
    splitOnSub_single _ _ htail
  have hstrip2 : publicUrlStrip productsS
      (base ++ (pubMarkerS ++ (productsS ++ '/' :: (folder ++ '/' :: suffix))))
      = joinWithSlash (splitOnChar '/' (folder ++ '/' :: suffix)) :=
    publicUrlStrip_of_parts productsS _ base (folder ++ '/' :: suffix)
      (by rw [hsplit, htailsplit]) hslash
  have hjoin : joinWithSlash (splitOnChar '/' (folder ++ '/' :: suffix))
      = folder ++ '/' :: suffix := joinWithSlash_splitOnChar _
  have hstrip : stripBucketIfLeading productsS (folder ++ '/' :: suffix)
      = folder ++ '/' :: suffix := by
    unfold stripBucketIfLeading
    rw [bucketSlash_no_match productsS folder suffix hslash hf1 (fun e => hf2 e.symm)]
    simp
  simp [normalizeDeleteKey, hcontains, hstrip2, hjoin, hstrip]

/-- When the normalizer yields a non-blank key, one remove call with
exactly that key is issued. -/
theorem deleteCalls_of_normalize (remove : JStr → RemoveOutcome) (bucket fp key : JStr)
    (hn : normalizeDeleteKey bucket fp = some key) (hfp : fp ≠ [])
    (hkey : jsBlank key = false) :
    (deleteFromSupabaseStorage true remove bucket fp).removeCalls = [key] := by
  unfold deleteFromSupabaseStorage
  rw [isEmpty_false_of_ne_nil hfp]
  simp only [Bool.not_true, Bool.false_or, Bool.false_eq_true, if_false, hn, hkey]
  cases remove key <;> rfl

/- ===================== C2: upload/delete round trip ===================== -/

/-- C2: for every key the object-store write produces (form
`<folder>/<timestamp>-<random><ext>`, bucket `products`, folder `images`
or `videos`), feeding the returned public URL into the delete normalizer
yields exactly the original bare key, and that key is what is passed to
the underlying remove call.  The two occurrence hypotheses say the URL
contains the public-object marker only where the URL constructor put it
(true of every produced URL; discharged by computation in the witness). -/
theorem upload_delete_roundtrip (base folder : JStr) (ts rand : Nat) (ext : JStr)
    (remove : JStr → RemoveOutcome)
    (hfolder : folder = ("images").data ∨ folder = ("videos").data)
    (hocc : ∀ i < base.length,
      pubMarkerS.isPrefixOf ((storagePublicUrl base productsS
        (mkUploadFileName folder ts rand ext)).drop i) = false)
    (htail : containsSub pubMarkerS
      (productsS ++ '/' :: mkUploadFileName folder ts rand ext) = false) :
    normalizeDeleteKey productsS
        (storagePublicUrl base productsS (mkUploadFileName folder ts rand ext))
      = some (mkUploadFileName folder ts rand ext)
    ∧ (deleteFromSupabaseStorage true remove productsS
        (storagePublicUrl base productsS (mkUploadFileName folder ts rand ext))).removeCalls
      = [mkUploadFileName folder ts rand ext] := by
  have hkey : mkUploadFileName folder ts rand ext
      = folder ++ '/' :: (natStr ts ++ '-' :: natStr rand ++ ext) := by
    obtain hf | hf := hfolder <;> subst hf <;> rfl
  have hf1 : '/' ∉ folder := by
    obtain hf | hf := hfolder <;> subst hf <;> decide
  have hf2 : folder ≠ productsS := by
    obtain hf | hf := hfolder <;> subst hf <;> decide
  rw [hkey] at hocc htail ⊢
  have hn := normalizeDeleteKey_publicUrl base folder _ hf1 hf2 hocc htail
  refine ⟨hn, ?_⟩
  refine deleteCalls_of_normalize remove productsS _ _ hn ?_ ?_
  · intro hc
    rw [storagePublicUrl] at hc
    simp [List.append_eq_nil] at hc
  · exact jsBlank_of_slash_mem folder _

/-- Witness for C2 on a concrete produced key and base URL. -/
theorem upload_delete_roundtrip_witness :
    normalizeDeleteKey productsS
        (storagePublicUrl (("https://abcd.supabase.co").data) productsS
          (mkUploadFileName (("images").data) 1234 567 ((".jpg").data)))
      = some (mkUploadFileName (("images").data) 1234 567 ((".jpg").data))
    ∧ mkUploadFileName (("images").data) 1234 567 ((".jpg").data)
      = ("images/1234-567.jpg").data
    ∧ storagePublicUrl (("https://abcd.supabase.co").data) productsS
        (("images/1234-567.jpg").data)
      = ("https://abcd.supabase.co/storage/v1/object/public/products/images/1234-567.jpg").data := by
  refine ⟨(upload_delete_roundtrip (("https://abcd.supabase.co").data) (("images").data)
      1234 567 ((".jpg").data) (fun _ => RemoveOutcome.ok) (Or.inl rfl)
      (by decide) (by decide)).1, by decide, by decide⟩

/- ===================== C5: best-effort storage delete ===================== -/

/-- C5: the storage delete is total and best-effort: no input or remove
outcome makes an error escape to the caller; a key that is empty or
blank after normalization makes the delete a no-op; the issued remove
calls are independent of the remove outcomes; and the product delete
handler's database delete is issued whatever the storage behaviour. -/
theorem storage_delete_best_effort :
    (∀ (configured : Bool) (remove : JStr → RemoveOutcome) (bucket fp : JStr),
      (deleteFromSupabaseStorage configured remove bucket fp).escalated = false)
    ∧ (∀ (configured : Bool) (remove : JStr → RemoveOutcome) (bucket fp key : JStr),
        normalizeDeleteKey bucket fp = some key → jsBlank key = true →
        (deleteFromSupabaseStorage configured remove bucket fp).removeCalls = [])
    ∧ (∀ (r1 r2 : JStr → RemoveOutcome) (configured : Bool) (bucket fp : JStr),
        (deleteFromSupabaseStorage configured r1 bucket fp).removeCalls
          = (deleteFromSupabaseStorage configured r2 bucket fp).removeCalls)
    ∧ (∀ (removeFails : JStr → Bool) (fetch : Option FetchedProduct) (dbErr : Bool) (id : JStr),
        DelEvent.dbDel id ∈ (productDeleteRoute true removeFails fetch dbErr id).1) := by
  refine ⟨?_, ?_, ?_, ?_⟩
  · intro c r b f
    unfold deleteFromSupabaseStorage
    repeat' split
    all_goals rfl
  · intro c r b f key hn hb
    unfold deleteFromSupabaseStorage
    split
    · rfl
    · rw [hn]
      simp [hb]
  · intro r1 r2 c b f
    unfold deleteFromSupabaseStorage
    split
    · rfl
    · cases hn : normalizeDeleteKey b f with
      | none => rfl
      | some key =>
        by_cases hb : jsBlank key = true
        · simp [hb]
        · have hb' : jsBlank key = false := by
            cases hkb : jsBlank key
            · rfl
            · exact absurd hkb hb
          simp only [hb']
          cases r1 key <;> cases r2 key <;> rfl
  · intro rf fetch dbErr id
    unfold productDeleteRoute
    cases dbErr <;> simp

/-- Witness for C5: a reference that normalizes to a blank key is
skipped without a remove call. -/
theorem storage_delete_best_effort_witness :
    normalizeDeleteKey productsS (("/ ").data) = some ((" ").data)
    ∧ jsBlank ((" ").data) = true
    ∧ (deleteFromSupabaseStorage true (fun _ => RemoveOutcome.ok) productsS
        (("/ ").data)).removeCalls = [] := by
  refine ⟨by decide, by decide,
    storage_delete_best_effort.2.1 true (fun _ => RemoveOutcome.ok) productsS
      (("/ ").data) ((" ").data) (by decide) (by decide)⟩

/- ===================== C7: normalization order ===================== -/

/-- C7 fails on the code: the claim reads the four strips as one
sequential pipeline applied to whichever patterns match, but in the code
the first three are exclusive if/else-if alternatives.  On the bare
reference `products//x` the code only applies the final bucket strip and
removes `products/` (leaving `/x`), while the claimed pipeline would
strip the bucket component and then the leading slash (leaving `x`). -/
theorem normalize_order_counterexample :
    normalizeDeleteKey productsS (("products//x").data) = some (("/x").data)
    ∧ claimOrderedNormalize productsS (("products//x").data) = ("x").data
    ∧ ¬ (normalizeDeleteKey productsS (("products//x").data)
          = some (claimOrderedNormalize productsS (("products//x").data))) :=
  ⟨by decide, by decide, by decide⟩

/-- C7 amended: the public-URL strip (with its nested bucket-component
strip), the http-URL pathname extraction and the leading-slash strip are
mutually exclusive alternatives selected by the reference's form, in
that order; only the final leading-`<bucket>/` strip is applied
unconditionally afterwards, before the remove call. -/
theorem normalize_order_amended (bucket fp : JStr) :
    normalizeDeleteKey bucket fp = amendedNormalize bucket fp := by
  unfold normalizeDeleteKey amendedNormalize detectRefForm
  by_cases h1 : containsSub pubMarkerS fp = true
  · simp [h1]
  · by_cases h2 : (httpSchemeS.isPrefixOf fp || httpsSchemeS.isPrefixOf fp) = true
    · simp [h1, h2]
    · by_cases h3 : fp.head? = some '/'
      · simp [h1, h2, h3]
      · simp [h1, h2, h3]

/- ===================== C3: unconfigured-backend behaviour ===================== -/

/-- C3 fails on the code: with the storage client unconfigured and a file
present, `POST /api/upload/image` does not return an accepted-but-not-
persisted success — it fails with 500 `Supabase is not configured`. -/
theorem unconfigured_upload_counterexample :
    uploadImageRoute false true (Except.ok { path := [], publicUrl := [], fileName := [] })
      = { status := 500
          body := RespBody.jsonErr (("Supabase is not configured").data) none }
    ∧ ((500 : Nat) ≠ 200 ∧ (500 : Nat) ≠ 201) :=
  ⟨rfl, by decide⟩

/-- C3 amended: with the storage configuration absent, the read
endpoints return the fixed mock dataset (banners: the empty list) and
the product/banner write endpoints return accepted-but-not-persisted
successes, but the three upload endpoints (`POST /api/upload/image`,
`/images`, `/video`) instead fail with 500 `Supabase is not
configured`. -/
theorem unconfigured_fallback_amended :
    getProductsRoute false false []
      = { status := 200, body := RespBody.mockProductList getMockProducts }
    ∧ getBannersRoute false false [] = { status := 200, body := RespBody.bannerList [] }
    ∧ (∀ (ids : List JStr) (now : Nat),
        (postProductsRoute false false false ids now exampleProductBody).1.status = 201
        ∧ (postProductsRoute false false false ids now exampleProductBody).2 = [])
    ∧ (∀ (rf : JStr → Bool) (fetch : Option FetchedProduct) (id : JStr),
        productDeleteRoute false rf fetch false id
          = ([], { status := 200
                   body := RespBody.jsonMsg
                     (("Product deleted successfully (from memory)").data) }))
    ∧ (∀ (rf : JStr → Bool) (fetch : Option (Option JStr)) (id : JStr),
        bannerDeleteRoute false rf fetch false id
          = ([], { status := 200
                   body := RespBody.jsonMsg
                     (("Banner deleted successfully (not saved)").data) }))
    ∧ (∀ u, uploadImageRoute false true u
        = { status := 500
            body := RespBody.jsonErr (("Supabase is not configured").data) none })
    ∧ (∀ us, uploadImagesRoute false true us
        = { status := 500
            body := RespBody.jsonErr (("Supabase is not configured").data) none })
    ∧ (∀ u, uploadVideoRoute false true u
        = { status := 500
            body := RespBody.jsonErr (("Supabase is not configured").data) none }) := by
  refine ⟨rfl, rfl, ?_, ?_, ?_, ?_, ?_, ?_⟩
  · intro ids now
    exact ⟨rfl, rfl⟩
  · intro rf fetch id
    rfl
  · intro rf fetch id
    rfl
  · intro u
    rfl
  · intro us
    rfl
  · intro u
    rfl

/- ===================== C4: product delete cascade ===================== -/

/-- C4 fails on the code: the handler also issues a storage delete for
the main `image` field before walking the `images` array, so a product
whose images field lists exactly two URLs receives three storage-delete
calls when its main image is set (as the create handler always sets it
to the first array entry), not exactly two. -/
theorem product_delete_cascade_counterexample :
    (productDeleteRoute true (fun _ => false)
        (some { image := some (("u1").data)
                images := some [("u1").data, ("u2").data]
                video := none })
        false (("prod-9").data)).1
      = [DelEvent.storageDel (("u1").data), DelEvent.storageDel (("u1").data),
         DelEvent.storageDel (("u2").data), DelEvent.dbDel (("prod-9").data)]
    ∧ countStorageDels (productDeleteRoute true (fun _ => false)
        (some { image := some (("u1").data)
                images := some [("u1").data, ("u2").data]
                video := none })
        false (("prod-9").data)).1 = 3
    ∧ (3 : Nat) ≠ 2 :=
  ⟨by decide, by decide, by decide⟩

/-- C4 amended: deleting a product whose `images` field lists exactly
two URLs issues one storage-delete call per URL, plus one preceding call
for the main image field when it is non-empty and one following call for
the video field when non-empty (so exactly two calls when those fields
are empty), followed by exactly one database delete, always last and
issued regardless of the storage outcomes and of the database result. -/
theorem product_delete_cascade_amended (rf : JStr → Bool) (img vid : Option JStr)
    (u1 u2 id : JStr) (dbErr : Bool)
    (himg : jsTruthyStrOpt img = false) (hvid : jsTruthyStrOpt vid = false) :
    (productDeleteRoute true rf (some { image := img, images := some [u1, u2], video := vid })
        dbErr id).1
      = [DelEvent.storageDel u1, DelEvent.storageDel u2, DelEvent.dbDel id]
    ∧ (∀ (fetch : Option FetchedProduct),
        ∃ s, (productDeleteRoute true rf fetch dbErr id).1 = s ++ [DelEvent.dbDel id]
          ∧ ∀ e ∈ s, DelEvent.isStorageDel e = true) := by
  constructor
  · unfold productDeleteRoute
    cases dbErr <;> simp [himg, hvid]
  · intro fetch
    unfold productDeleteRoute
    cases fetch with
    | none =>
      refine ⟨[], ?_, by simp⟩
      cases dbErr <;> simp
    | some p =>
      refine ⟨(if jsTruthyStrOpt p.image then [DelEvent.storageDel (p.image.getD [])] else [])
        ++ ((match p.images with | some l => l.map DelEvent.storageDel | none => [])
          ++ (if jsTruthyStrOpt p.video then [DelEvent.storageDel (p.video.getD [])] else [])),
        ?_, ?_⟩
      · cases dbErr <;> simp
      · intro e he
        simp only [List.mem_append] at he
        rcases he with h1 | h2 | h3
        · by_cases hc : jsTruthyStrOpt p.image = true
          · simp [hc] at h1
            subst h1
            rfl
          · simp [hc] at h1
        · cases hims : p.images with
          | none =>
            rw [hims] at h2
            simp at h2
          | some l =>
            rw [hims] at h2
            simp only [List.mem_map] at h2
            obtain ⟨a, _, rfl⟩ := h2
            rfl
        · by_cases hc : jsTruthyStrOpt p.video = true
          · simp [hc] at h3
            subst h3
            rfl
          · simp [hc] at h3

/-- Witness for C4 amended: two image URLs, empty main image and video
fields — exactly two storage deletes, then the database delete. -/
theorem product_delete_cascade_amended_witness :
    (productDeleteRoute true (fun _ => true)
        (some { image := none, images := some [("u1").data, ("u2").data], video := none })
        false (("prod-9").data)).1
      = [DelEvent.storageDel (("u1").data), DelEvent.storageDel (("u2").data),
         DelEvent.dbDel (("prod-9").data)] :=
  (product_delete_cascade_amended (fun _ => true) none none (("u1").data) (("u2").data)
    (("prod-9").data) false (by decide) (by decide)).1

/- ===================== C8: product creation defaults ===================== -/

theorem generateProductId_pattern (configured fetchErr : Bool) (ids : List JStr) (now : Nat) :
    ∃ n : Nat, generateProductId configured fetchErr ids now = ("prod-").data ++ natStr n := by
  unfold generateProductId
  by_cases hc : configured = true
  · by_cases hf : fetchErr = true
    · exact ⟨now, by simp [hc, hf]⟩
    · have hf' : fetchErr = false := by
        cases fetchErr
        · rfl
        · exact absurd rfl hf
      by_cases hi : ids.isEmpty = true
      · refine ⟨1, ?_⟩
        simp [hc, hf', hi]
        decide
      · have hi' : ids.isEmpty = false := by
          cases h : ids.isEmpty
          · rfl
          · exact absurd h hi
        by_cases hm : maxProdNum ids > 0
        · exact ⟨maxProdNum ids + 1, by simp [hc, hf', hi', hm]⟩
        · refine ⟨1, ?_⟩
          simp [hc, hf', hi', hm]
          decide
  · have hc' : configured = false := by
      cases configured
      · rfl
      · exact absurd rfl hc
    exact ⟨now, by simp [hc']⟩

/-- C8: a create request supplying truthy `name`, `originalPrice` and
`discountedPrice` but no `rating` and no `inStock` yields a 201 response
whose product has an id of the form `prod-<N>`, rating 0 and inStock
true; a request missing (or falsy in) any of `name`, `originalPrice` or
`discountedPrice` is rejected with 400 and nothing is handed to the
database insert. -/
theorem product_creation_defaults (configured fetchErr dbErr : Bool) (ids : List JStr)
    (now : Nat) (b : ProductBody)
    (hname : jsTruthyStrOpt b.name = true)
    (hop : jsTruthyIntOpt b.originalPrice = true)
    (hdp : jsTruthyIntOpt b.discountedPrice = true)
    (hrating : b.rating = none) (hstock : b.inStock = none)
    (hok : configured = true → dbErr = false) :
    (∃ (p : Product) (m : JStr) (n : Nat),
      (postProductsRoute configured fetchErr dbErr ids now b).1
        = { status := 201, body := RespBody.productOut p m }
      ∧ p.rating = 0 ∧ p.inStock = some true
      ∧ p.id = ("prod-").data ++ natStr n)
    ∧ (∀ (b2 : ProductBody),
        jsTruthyStrOpt b2.name = false ∨ jsTruthyIntOpt b2.originalPrice = false
          ∨ jsTruthyIntOpt b2.discountedPrice = false →
        (postProductsRoute configured fetchErr dbErr ids now b2).1.status = 400
        ∧ (postProductsRoute configured fetchErr dbErr ids now b2).2 = []) := by
  constructor
  · obtain ⟨n, hn⟩ := generateProductId_pattern configured fetchErr ids now
    cases configured with
    | false =>
      refine ⟨mkNewProduct (generateProductId false fetchErr ids now) b,
        ("Product created successfully (stored in memory)").data, n, ?_, ?_, ?_, ?_⟩
      · unfold postProductsRoute
        simp [hname, hop, hdp]
      · simp [mkNewProduct, hrating, jsTruthyIntOpt]
      · simp [mkNewProduct, hstock]
      · simpa [mkNewProduct] using hn
    | true =>
      have hdb : dbErr = false := hok rfl
      subst hdb
      refine ⟨mkNewProduct (generateProductId true fetchErr ids now) b,
        ("Product created successfully").data, n, ?_, ?_, ?_, ?_⟩
      · unfold postProductsRoute
        simp [hname, hop, hdp]
      · simp [mkNewProduct, hrating, jsTruthyIntOpt]
      · simp [mkNewProduct, hstock]
      · simpa [mkNewProduct] using hn
  · intro b2 hb2
    unfold postProductsRoute
    rcases hb2 with h | h | h <;> simp [h]

/-- Witness for C8 at the spec's example body (name `X`, prices 100/80),
plus the three rejection cases: missing name, missing originalPrice with
name present, and missing discountedPrice with name and price present. -/
theorem product_creation_defaults_witness :
    (∃ (p : Product) (m : JStr) (n : Nat),
      (postProductsRoute false false false [] 5 exampleProductBody).1
        = { status := 201, body := RespBody.productOut p m }
      ∧ p.rating = 0 ∧ p.inStock = some true
      ∧ p.id = ("prod-").data ++ natStr n)
    ∧ ((postProductsRoute false false false [] 5 emptyProductBody).1.status = 400
       ∧ (postProductsRoute false false false [] 5 emptyProductBody).2 = [])
    ∧ ((postProductsRoute false false false [] 5
          { emptyProductBody with
            name := some (("X").data), discountedPrice := some 80 }).1.status = 400
       ∧ (postProductsRoute false false false [] 5
          { emptyProductBody with
            name := some (("X").data), discountedPrice := some 80 }).2 = [])
    ∧ ((postProductsRoute false false false [] 5
          { emptyProductBody with
            name := some (("X").data), originalPrice := some 100 }).1.status = 400
       ∧ (postProductsRoute false false false [] 5
          { emptyProductBody with
            name := some (("X").data), originalPrice := some 100 }).2 = []) := by
  have h := product_creation_defaults false false false [] 5 exampleProductBody
    (by decide) (by decide) (by decide) rfl rfl (fun _ => rfl)
  exact ⟨h.1, h.2 emptyProductBody (Or.inl rfl),
    h.2 _ (Or.inr (Or.inl rfl)), h.2 _ (Or.inr (Or.inr rfl))⟩

/- ===================== C10: banner delete ordering ===================== -/

/-- C10: in banner deletion the database delete is always issued first;
when it fails the handler responds 500 and the storage delete of the
banner image is never attempted; a storage-delete call only ever comes
after the database delete. -/
theorem banner_delete_order (rf : JStr → Bool) (fetch : Option (Option JStr))
    (dbErr : Bool) (id : JStr) :
    ((bannerDeleteRoute true rf fetch dbErr id).1.head? = some (DelEvent.dbDel id))
    ∧ (dbErr = true →
        (bannerDeleteRoute true rf fetch dbErr id).2.status = 500
        ∧ ∀ e ∈ (bannerDeleteRoute true rf fetch dbErr id).1,
            DelEvent.isStorageDel e = false)
    ∧ (∃ s, (bannerDeleteRoute true rf fetch dbErr id).1 = DelEvent.dbDel id :: s
        ∧ ∀ e ∈ s, DelEvent.isStorageDel e = true) := by
  refine ⟨?_, ?_, ?_⟩
  · unfold bannerDeleteRoute
    cases dbErr <;> simp
  · intro hdb
    subst hdb
    unfold bannerDeleteRoute
    refine ⟨rfl, ?_⟩
    intro e he
    simp at he
    subst he
    rfl
  · unfold bannerDeleteRoute
    cases dbErr with
    | true => exact ⟨[], by simp, by simp⟩
    | false =>
      cases fetch with
      | none => exact ⟨[], by simp, by simp⟩
      | some iu =>
        cases iu with
        | none => exact ⟨[], by simp, by simp⟩
        | some u =>
          by_cases hu : u.isEmpty = true
          · exact ⟨[], by simp [hu], by simp⟩
          · have hu' : u.isEmpty = false := by
              cases h : u.isEmpty
              · rfl
              · exact absurd h hu
            refine ⟨[DelEvent.storageDel u], by simp [hu'], ?_⟩
            intro e he
            simp at he
            subst he
            rfl

/-- Witness for C10: a failing database delete responds 500 and issues
no storage delete even though the banner has an image. -/
theorem banner_delete_order_witness :
    (bannerDeleteRoute true (fun _ => false) (some (some (("img.jpg").data))) true
        (("5").data)).2.status = 500
    ∧ (bannerDeleteRoute true (fun _ => false) (some (some (("img.jpg").data))) true
        (("5").data)).1 = [DelEvent.dbDel (("5").data)] := by
  have h := banner_delete_order (fun _ => false) (some (some (("img.jpg").data))) true
    (("5").data)
  exact ⟨(h.2.1 rfl).1, by decide⟩

end Biomed
